import Mathlib

/-!
Verification of the stack-machine interpreter in `src/vm.py` (class `Frame`
and its instruction handlers).  The engine delegates all value semantics to
the Python object runtime; here that runtime is shallowly embedded over an
explicit `Value` domain (Python `float` is modelled as an exact rational,
callables are modelled by an abstract application function passed to the
handlers that invoke them).  Stacks are Lean lists with the head as the
top of the stack; Python `dict`s are insertion-ordered association lists.
-/

namespace PyVM

/-- Values of the object runtime visible to the interpreter.  `none` is both
Python `None` and the call-convention null marker (`push_null` pushes
`None` in the source).  `rat` models Python floats as exact rationals,
`func` is an opaque callable identity, `iterator` models a list iterator by
its remaining elements, and `dict` an insertion-ordered string-keyed
dictionary (the shapes the engine itself builds). -/
inductive Value : Type where
  | none : Value
  | bool (b : Bool) : Value
  | int (n : Int) : Value
  | rat (q : ℚ) : Value
  | str (s : String) : Value
  | list (xs : List Value) : Value
  | tuple (xs : List Value) : Value
  | vset (xs : List Value) : Value
  | dict (kvs : List (String × Value)) : Value
  | iterator (rem : List Value) : Value
  | func (fid : Nat) : Value
  | notimplemented : Value

/-- Python `dict` keyed by strings: an insertion-ordered association list
with unique keys (maintained by `alInsert`). -/
abbrev PyDict := List (String × Value)

/-- Python `d[k] = v`: replace the value at the first occurrence of `k`
keeping its position, else append `(k, v)` at the end. -/
def alInsert {κ α : Type _} [DecidableEq κ] (k : κ) (v : α) :
    List (κ × α) → List (κ × α)
  | [] => [(k, v)]
  | (k1, v1) :: d => if k1 = k then (k, v) :: d else (k1, v1) :: alInsert k v d

/-- Python `d[k]` / `d.get(k)`: first (hence, with `alInsert`-built lists,
only) binding of `k`. -/
def alLookup {κ α : Type _} [DecidableEq κ] : List (κ × α) → κ → Option α
  | [], _ => Option.none
  | (k1, v) :: d, k => if k1 = k then some v else alLookup d k

/-- Python `k in d` for dictionaries. -/
def alMem {κ α : Type _} [DecidableEq κ] (d : List (κ × α)) (k : κ) : Bool :=
  (alLookup d k).isSome

/-- `dict(pairs)`: left-to-right insertion, later duplicates overwrite. -/
def dictOfPairs {κ α : Type _} [DecidableEq κ] (ps : List (κ × α)) : List (κ × α) :=
  ps.foldl (fun d kv => alInsert kv.1 kv.2 d) []

theorem alLookup_alInsert {κ α : Type _} [DecidableEq κ] (k : κ) (v : α)
    (d : List (κ × α)) (o : κ) :
    alLookup (alInsert k v d) o = if k = o then some v else alLookup d o := by
  induction d with
  | nil => simp [alInsert, alLookup]
  | cons kv d ih =>
      obtain ⟨k1, v1⟩ := kv
      by_cases h1 : k1 = k
      · subst h1
        simp only [alInsert, if_pos rfl, alLookup]
        split_ifs <;> simp_all
      · simp only [alInsert, if_neg h1, alLookup, ih]
        split_ifs <;> simp_all

mutual

/-- Python `==` on the modelled value domain: structural on containers,
numeric across `bool`/`int`/`float` (the cross-kind equalities the real
runtime grants). -/
def vbeq : Value → Value → Bool
  | .none, .none => true
  | .bool a, .bool b => a == b
  | .int a, .int b => a == b
  | .rat a, .rat b => a == b
  | .str a, .str b => a == b
  | .int a, .bool b => a == (if b then 1 else 0)
  | .bool a, .int b => (if a then 1 else 0 : Int) == b
  | .int a, .rat q => (a : ℚ) == q
  | .rat q, .int a => q == (a : ℚ)
  | .bool a, .rat q => ((if a then 1 else 0 : Int) : ℚ) == q
  | .rat q, .bool a => q == ((if a then 1 else 0 : Int) : ℚ)
  | .list a, .list b => vbeqList a b
  | .tuple a, .tuple b => vbeqList a b
  | .vset a, .vset b => vbeqList a b
  | .dict a, .dict b => vbeqDict a b
  | .iterator a, .iterator b => vbeqList a b
  | .func a, .func b => a == b
  | .notimplemented, .notimplemented => true
  | _, _ => false

/-- Elementwise `vbeq` on value lists. -/
def vbeqList : List Value → List Value → Bool
  | [], [] => true
  | a :: l1, b :: l2 => vbeq a b && vbeqList l1 l2
  | _, _ => false

/-- Pairwise `vbeq` on dictionary entry lists. -/
def vbeqDict : List (String × Value) → List (String × Value) → Bool
  | [], [] => true
  | (k1, a) :: l1, (k2, b) :: l2 => k1 == k2 && vbeq a b && vbeqDict l1 l2
  | _, _ => false

end

/-- Python `v in xs` by `==` over a list of values. -/
def vcontains (xs : List Value) (v : Value) : Bool :=
  xs.any (fun x => vbeq x v)

/-- Python list indexing `l[i]` with negative-index wraparound
(`l[-1]` is the last element); out of range is `IndexError`, here
`Option.none`. -/
def pyIndex {α : Type _} (l : List α) (i : Int) : Option α :=
  if 0 ≤ i then l.get? i.toNat
  else
    let j : Int := (l.length : Int) + i
    if 0 ≤ j then l.get? j.toNat else Option.none

/-- Python slice `l[:j]` for a possibly negative integer bound `j`
(negative bounds count from the end, then clamp). -/
def pySliceTo {α : Type _} (j : Int) (l : List α) : List α :=
  if 0 ≤ j then l.take j.toNat
  else l.take ((l.length : Int) + j).toNat

/-- Python slice `l[i:]` for a possibly negative integer start `i`. -/
def pySliceFrom {α : Type _} (i : Int) (l : List α) : List α :=
  if 0 ≤ i then l.drop i.toNat
  else l.drop ((l.length : Int) + i).toNat

/-!
## The execution stack

The stack is a `List Value` whose head is the top of the stack
(the source keeps a Python list whose last element is the top).
-/

/-- `Frame.popn`: remove the top `n` values and return them deepest-first
(Python's `data_stack[-n:]` clamps, so fewer than `n` are returned when the
stack is shorter — the engine treats that as a §3 invariant violation). -/
def popn (n : Nat) (s : List Value) : List Value × List Value :=
  ((s.take n).reverse, s.drop n)

/-!
## `call` and `kw_names` (claims C1, C3)

The callable itself belongs to the external object runtime, so invocation
is a parameter `ap : Value → List Value → PyDict → Value` standing for
`func(*args, **kwargs)` (receiver already folded into the positional
list, as the source does).
-/

/-- The per-frame state the `call` protocol touches: the execution stack
and the pending keyword-argument names set by `kw_names`. -/
structure CallFrame where
  stack : List Value
  kw_names : List String

/-- Python `v is None` (the only identity test the engine performs). -/
def isNoneV : Value → Bool
  | .none => true
  | _ => false

/-- `Frame.call_op`.  Pops `argc` argument values, splits the trailing
`len(kw_names)` of them as keyword arguments when `kw_names` is non-empty
(with Python's slicing semantics on the split point), pops `func`, then
peeks the next value: if it is `None` it is popped and `func` is invoked
with the split arguments, otherwise the first-popped value becomes the
receiver `obj` and the peeked value is popped and invoked as the callable
with `obj` prepended.  The result is pushed.  `kw_names` is left
untouched by this handler. -/
def call_op (ap : Value → List Value → PyDict → Value) (argc : Nat)
    (fr : CallFrame) : Option CallFrame :=
  let all_args := (popn argc fr.stack).1
  let rest0 := (popn argc fr.stack).2
  let args_kwargs : List Value × PyDict :=
    if fr.kw_names.isEmpty then (all_args, [])
    else
      (pySliceTo ((all_args.length : Int) - fr.kw_names.length) all_args,
       dictOfPairs (fr.kw_names.zip
         (pySliceFrom (-(fr.kw_names.length : Int)) all_args)))
  match rest0 with
  | func :: rest1 =>
    match rest1 with
    | .none :: rest2 =>
        some ⟨ap func args_kwargs.1 args_kwargs.2 :: rest2, fr.kw_names⟩
    | w :: rest2 =>
        some ⟨ap w (func :: args_kwargs.1) args_kwargs.2 :: rest2, fr.kw_names⟩
    | [] => Option.none
  | [] => Option.none

/-- `Frame.kw_names_op`: record the name tuple `co_consts[consti]` in the
frame's pending keyword-names slot (constants restricted to the name
tuples this instruction addresses). -/
def kw_names_op (co_consts : List (List String)) (consti : Nat)
    (fr : CallFrame) : Option CallFrame :=
  (co_consts.get? consti).map (fun t => ⟨fr.stack, t⟩)

/-- `Frame.load_method_op`: pop the receiver, push `None`, then push the
looked-up bound attribute (supplied by the object runtime `ga`). -/
def load_method_op (ga : Value → String → Option Value) (namei : String)
    (fr : CallFrame) : Option CallFrame :=
  match fr.stack with
  | v :: rest =>
      match ga v namei with
      | some attr => some ⟨attr :: Value.none :: rest, fr.kw_names⟩
      | Option.none => Option.none
  | [] => Option.none

/-- C1: full characterisation of `call_op` (amended form).  With `argc`
arguments on top, then `fn`, then `w`: the trailing `M = kw_names.length`
of the arguments are split off as keyword arguments under the recorded
names; if `w` is the null marker it is popped and the first-popped value
`fn` is invoked as the callable with the split arguments; otherwise `w` is
popped too and invoked as the callable, with `fn` — the value popped from
the callable position — prepended as the receiver.  The result is pushed
and `kw_names` is left as it was. -/
theorem call_receiver_convention (ap : Value → List Value → PyDict → Value)
    (argtop : List Value) (fn w : Value) (rest : List Value)
    (kwn : List String) (hkw : kwn.length ≤ argtop.length) :
    (call_op ap argtop.length ⟨argtop ++ fn :: Value.none :: rest, kwn⟩ =
      some ⟨ap fn (argtop.reverse.take (argtop.length - kwn.length))
              (dictOfPairs (kwn.zip
                (argtop.reverse.drop (argtop.length - kwn.length)))) :: rest,
            kwn⟩)
    ∧ (isNoneV w = false →
      call_op ap argtop.length ⟨argtop ++ fn :: w :: rest, kwn⟩ =
        some ⟨ap w (fn :: argtop.reverse.take (argtop.length - kwn.length))
                (dictOfPairs (kwn.zip
                  (argtop.reverse.drop (argtop.length - kwn.length)))) :: rest,
              kwn⟩) := by
  have hsplit : ∀ tail : List Value,
      (if kwn.isEmpty then (argtop.reverse, ([] : PyDict))
       else
        (pySliceTo ((argtop.reverse.length : Int) - kwn.length) argtop.reverse,
         dictOfPairs (kwn.zip
           (pySliceFrom (-(kwn.length : Int)) argtop.reverse)))) =
      (argtop.reverse.take (argtop.length - kwn.length),
       dictOfPairs (kwn.zip
         (argtop.reverse.drop (argtop.length - kwn.length)))) ∧
      (popn argtop.length (argtop ++ tail)).1 = argtop.reverse ∧
      (popn argtop.length (argtop ++ tail)).2 = tail := by
    intro tail
    refine ⟨?_, ?_, ?_⟩
    · cases kwn with
      | nil => simp [dictOfPairs]
      | cons k ks =>
          have hne : ¬ ((k :: ks).isEmpty = true) := by simp
          rw [if_neg hne]
          simp only [Prod.mk.injEq]
          constructor
          · simp only [pySliceTo, List.length_reverse]
            rw [if_pos (by simp only [List.length_cons] at hkw ⊢; omega)]
            have e1 : ((argtop.length : Int) - (((k :: ks).length : Nat) : Int)).toNat
                = argtop.length - (k :: ks).length := by
              simp only [List.length_cons] at hkw ⊢
              omega
            rw [e1]
          · simp only [pySliceFrom, List.length_reverse]
            rw [if_neg (by simp only [List.length_cons]; omega)]
            have e2 : ((argtop.length : Int) + -(((k :: ks).length : Nat) : Int)).toNat
                = argtop.length - (k :: ks).length := by
              simp only [List.length_cons] at hkw ⊢
              omega
            rw [e2]
    · simp [popn, List.take_left]
    · simp [popn, List.drop_left]
  constructor
  · have h := hsplit (fn :: Value.none :: rest)
    simp only [call_op, h.1, h.2.1, h.2.2]
  · intro hw
    have h := hsplit (fn :: w :: rest)
    cases w <;> simp_all [call_op, isNoneV]

/-- Applier for the C1 counterexample: the result records which value was
invoked as the callable and which positional arguments it received. -/
def apCex : Value → List Value → PyDict → Value :=
  fun f args _ => Value.tuple (f :: args)

/-- C1 as stated is false.  With stack (top first) `[func 1, func 0]` and
no arguments, the claim reads the first-popped `func 1` as the callable
and the inspected `func 0` as the receiver, predicting the invocation
`func 1 (func 0)`; the code instead invokes the inspected `func 0` as the
callable with the first-popped `func 1` as receiver, and the two
invocation results differ. -/
theorem call_receiver_convention_cex :
    call_op apCex 0 ⟨[Value.func 1, Value.func 0], []⟩ =
      some ⟨[Value.tuple [Value.func 0, Value.func 1]], []⟩
    ∧ apCex (Value.func 1) [Value.func 0] [] =
        Value.tuple [Value.func 1, Value.func 0]
    ∧ vbeq (Value.tuple [Value.func 0, Value.func 1])
        (Value.tuple [Value.func 1, Value.func 0]) = false :=
  ⟨rfl, rfl, rfl⟩

/-- Applier for the C1 witness. -/
def apWit : Value → List Value → PyDict → Value :=
  fun f args kw => Value.tuple (f :: args ++ kw.map Prod.snd)

/-- Witness for `call_receiver_convention` at a concrete call site:
two arguments, one keyword name, null marker present. -/
theorem call_receiver_convention_wit :
    call_op apWit 2
        ⟨[Value.int 2, Value.int 1, Value.func 3, Value.none], ["k"]⟩ =
      some ⟨[Value.tuple [Value.func 3, Value.int 1, Value.int 2]], ["k"]⟩ := by
  simpa using (call_receiver_convention apWit [Value.int 2, Value.int 1]
    (Value.func 3) (Value.int 0) [] ["k"] (by simp)).1

/-- Applier that reports the positional/keyword split it received. -/
def apSplit : Value → List Value → PyDict → Value :=
  fun _ args kw => Value.tuple [Value.int args.length, Value.int kw.length]

/-- C3 fails on the code: `kw_names_op` records the pending names, but
`call_op` never clears them — after a `call` completes the slot still
holds `("k")`, and a second `call` not preceded by its own `kw_names`
again splits its single argument as a keyword argument (0 positional,
1 keyword) instead of treating it as positional. -/
theorem kw_names_not_cleared_bug :
    kw_names_op [["k"]] 0 ⟨[], []⟩ = some ⟨[], ["k"]⟩
    ∧ call_op apSplit 1 ⟨[Value.int 9, Value.func 0, Value.none], ["k"]⟩ =
        some ⟨[Value.tuple [Value.int 0, Value.int 1]], ["k"]⟩
    ∧ call_op apSplit 1 ⟨[Value.int 7, Value.func 1, Value.none], ["k"]⟩ =
        some ⟨[Value.tuple [Value.int 0, Value.int 1]], ["k"]⟩ :=
  ⟨rfl, rfl, rfl⟩

/-!
## Argument binding (claims C2, C4)

`Frame.make_function_op` builds a closure whose inner function `f`
performs the whole binding; `bindArgs` is that function up to the point
where the callee frame is created.  `CodeShape` carries the code-object
metadata `f` reads.
-/

/-- `Frame.ERR_TOO_MANY_POS_ARGS`. -/
def ERR_TOO_MANY_POS_ARGS : String := "Too many positional arguments"

/-- `Frame.ERR_TOO_MANY_KW_ARGS`. -/
def ERR_TOO_MANY_KW_ARGS : String := "Too many keyword arguments"

/-- `Frame.ERR_MULT_VALUES_FOR_ARG`. -/
def ERR_MULT_VALUES_FOR_ARG : String := "Multiple values for arguments"

/-- `Frame.ERR_MISSING_POS_ARGS`. -/
def ERR_MISSING_POS_ARGS : String := "Missing positional arguments"

/-- `Frame.ERR_MISSING_KWONLY_ARGS`. -/
def ERR_MISSING_KWONLY_ARGS : String := "Missing keyword-only arguments"

/-- `Frame.ERR_POSONLY_PASSED_AS_KW`. -/
def ERR_POSONLY_PASSED_AS_KW : String :=
  "Positional-only argument passed as keyword argument"

/-- The code-object metadata the binder reads: `co_varnames` (ALL local
variable names: parameters first, then other locals), `co_argcount`,
`co_posonlyargcount`, `co_kwonlyargcount`, `co_nlocals`, `co_flags`
(bit 2 = `*args` declared, bit 3 = `**kwargs` declared). -/
structure CodeShape where
  varnames : List String
  argcount : Nat
  posonly : Nat
  kwonly : Nat
  nlocals : Nat
  flags : Nat

/-- Python `len`. -/
def pyLen : Value → Option Nat
  | .str s => some s.length
  | .list xs => some xs.length
  | .tuple xs => some xs.length
  | .vset xs => some xs.length
  | .dict kvs => some kvs.length
  | _ => Option.none

/-- `parsed_args[collector][k] = v`: update the dictionary value stored
under `collector` (a `TypeError` if that value is not a dictionary). -/
def dictItemInsert (parsed : PyDict) (collector k : String) (v : Value) :
    Except String PyDict :=
  match alLookup parsed collector with
  | some (Value.dict kvs) =>
      .ok (alInsert collector (Value.dict (alInsert k v kvs)) parsed)
  | _ => .error "TypeError"

/-- The inner binder `f` of `Frame.make_function_op`, from `parsed_args =
{}` down to the checks before the callee frame is built.  Positional
arguments `args` and actual keyword arguments `kwargs` are bound against
the declared shape; the result is the `parsed_args` dictionary or the
first binding error raised. -/
def bindArgs (code : CodeShape) (args_default : List Value)
    (kwargs_default : PyDict) (args : List Value) (kwargs : PyDict) :
    Except String PyDict := do
  let names := code.varnames
  let arg_count := code.argcount
  let pos_only_count := code.posonly
  let kw_only_count := code.kwonly
  let default_values := args_default
  let local_variables := code.nlocals
  let kw_default_values := kwargs_default
  let has_varargs : Bool := code.flags &&& 4 != 0
  let has_varkw : Bool := code.flags &&& 8 != 0
  let mut parsed_args : PyDict := []
  let mut shift : Int :=
    (arg_count : Int) + (kw_only_count : Int) - (local_variables : Int)
  let mut vararg_name : String := ""
  let mut varkw_name : String := ""
  if has_varargs then
    match pyIndex names shift with
    | Option.none => throw "IndexError"
    | some nm =>
        vararg_name := nm
        parsed_args := alInsert nm (Value.tuple []) parsed_args
        shift := shift + 1
  if has_varkw then
    match pyIndex names shift with
    | Option.none => throw "IndexError"
    | some nm =>
        varkw_name := nm
        parsed_args := alInsert nm (Value.dict []) parsed_args
        shift := shift + 1
  if args.length > arg_count then
    if !has_varargs then
      throw ERR_TOO_MANY_POS_ARGS
    else
      parsed_args :=
        alInsert vararg_name (Value.tuple (args.drop arg_count)) parsed_args
  for kv in kw_default_values do
    if !names.contains kv.1 then
      throw ERR_TOO_MANY_KW_ARGS
    else
      parsed_args := alInsert kv.1 kv.2 parsed_args
  for kv in kwargs do
    if !names.contains kv.1 then
      if !has_varkw then
        throw ERR_TOO_MANY_KW_ARGS
      else
        match dictItemInsert parsed_args varkw_name kv.1 kv.2 with
        | .error e => throw e
        | .ok d => parsed_args := d
    else if names.indexOf kv.1 < pos_only_count then
      if !has_varkw then
        throw ERR_POSONLY_PASSED_AS_KW
      else
        match dictItemInsert parsed_args varkw_name kv.1 kv.2 with
        | .error e => throw e
        | .ok d => parsed_args := d
    else
      parsed_args := alInsert kv.1 kv.2 parsed_args
  for iv in args.enum do
    if has_varargs then
      match alLookup parsed_args vararg_name with
      | Option.none => throw "KeyError"
      | some collector =>
          match pyLen collector with
          | Option.none => throw "TypeError"
          | some clen =>
              if iv.1 ≥ args.length - clen then
                break
    match names.get? iv.1 with
    | Option.none => throw "IndexError"
    | some nm =>
        if alMem parsed_args nm then
          throw ERR_MULT_VALUES_FOR_ARG
        else
          parsed_args := alInsert nm iv.2 parsed_args
  for i in List.range' args.length (arg_count - args.length) do
    match names.get? i with
    | Option.none => throw "IndexError"
    | some nm =>
        if alMem kwargs nm then
          continue
        let shifted_i : Int :=
          (i : Int) - (arg_count : Int) + (default_values.length : Int)
        if shifted_i < 0 ∨ (default_values.length : Int) ≤ shifted_i then
          throw ERR_MISSING_POS_ARGS
        else
          match default_values.get? shifted_i.toNat with
          | Option.none => throw "IndexError"
          | some dv => parsed_args := alInsert nm dv parsed_args
  for i in List.range' 0 pos_only_count do
    match names.get? i with
    | Option.none => throw "IndexError"
    | some nm =>
        if !alMem parsed_args nm then
          throw ERR_MISSING_POS_ARGS
  for i in List.range' arg_count kw_only_count do
    match names.get? i with
    | Option.none => throw "IndexError"
    | some nm =>
        if !alMem parsed_args nm then
          throw ERR_MISSING_KWONLY_ARGS
  return parsed_args

/-- `f_locals = dict(self.locals); f_locals.update(parsed_args)`: the
callee frame's starting locals are the defining frame's locals overlaid
with the binding. -/
def functionLocals (outer_locals parsed_args : PyDict) : PyDict :=
  parsed_args.foldl (fun d kv => alInsert kv.1 kv.2 d) outer_locals

/-- The shape of `f(a, b=10)`: two positional-or-keyword parameters, no
positional-only or keyword-only parameters, no collectors, one positional
default aligned to `b`. -/
def shapeC4 : CodeShape := ⟨["a", "b"], 2, 0, 0, 2, 0⟩

/-- C4: for `f(a, b=10)` — `f(5)` binds `a ↦ 5, b ↦ 10`; `f(5, b=20)`
binds `a ↦ 5, b ↦ 20` (and nothing else); `f(a=1, b=2, c=3)` fails with
the too-many-keyword-arguments error. -/
theorem default_binding_scenarios :
    bindArgs shapeC4 [Value.int 10] [] [Value.int 5] [] =
      .ok [("a", Value.int 5), ("b", Value.int 10)]
    ∧ (bindArgs shapeC4 [Value.int 10] [] [Value.int 5]
        [("b", Value.int 20)]).map (fun d =>
          (alLookup d "a", alLookup d "b", d.length)) =
        .ok (some (Value.int 5), some (Value.int 20), 2)
    ∧ bindArgs shapeC4 [Value.int 10] []
        [] [("a", Value.int 1), ("b", Value.int 2), ("c", Value.int 3)] =
      .error ERR_TOO_MANY_KW_ARGS :=
  ⟨rfl, rfl, rfl⟩

/-- The shape of `def f(a): x = ...`: one declared parameter `a`, one
extra local variable `x`, no collectors — so `co_varnames = (a, x)` and
`co_nlocals = 2`. -/
def shapeC2 : CodeShape := ⟨["a", "x"], 1, 0, 0, 2, 0⟩

/-- C2 fails on the code: calling the above `f` as `f(5, x=7)` must fail
with the too-many-keyword-arguments error per the claim (`x` is not a
declared parameter and no `**kwargs` collector exists), but the binder
tests membership in `co_varnames` — which also contains the plain local
`x` — and silently binds `x ↦ 7` next to `a ↦ 5`. -/
theorem kwarg_local_name_bug :
    bindArgs shapeC2 [] [] [Value.int 5] [("x", Value.int 7)] =
      .ok [("x", Value.int 7), ("a", Value.int 5)]
    ∧ (bindArgs shapeC2 [] [] [Value.int 5] [("x", Value.int 7)]).isOk = true
    ∧ shapeC2.varnames.take shapeC2.argcount = ["a"]
    ∧ shapeC2.flags &&& 8 = 0 :=
  ⟨rfl, rfl, rfl, rfl⟩

/-!
## Binary operators (claim C5)

`Frame._BINARIES` maps operand codes 0–12 to the operator-syntax forms
(`x + y`, …) and codes 13–25 to the explicit dunder calls
(`x.__add__(y)`, …).  Both delegate to the Python object runtime, which is
embedded here over the `Value` domain: `rawDunder k x y` is `x.__k__(y)`
and `rawRDunder k x y` is the reflected `x.__rk__(y)` (computing
`y OP x`), each returning a value, `NotImplemented`, "method absent", or a
raised exception (identified by its class name).  The operator-syntax form
is Python's binary protocol: forward dunder, reflected fallback when the
forward call is absent or returns `NotImplemented`, and `TypeError` when
both decline.  Floats are exact rationals here; a float power with a
non-integral exponent and printf-style string formatting are outside the
modelled domain and are mapped to distinguished errors (identically in
both table forms, so the comparison between the forms is unaffected).
-/

/-- The 13 binary operators of the dispatch tables. -/
inductive BinKind : Type where
  | add | sub | mul | truediv | floordiv | mod | matmul
  | pow | lshift | rshift | land | lor | lxor
  deriving DecidableEq

/-- Result of one dunder call: an ordinary value, `NotImplemented`,
"no such method" (`AttributeError` when called explicitly), or a raised
exception named by its class. -/
inductive DunderRes : Type where
  | val (v : Value)
  | notimpl
  | missing
  | exn (e : String)

/-- Two's-complement bitwise AND on unbounded integers (Python `&`). -/
def intAnd (a b : Int) : Int :=
  if 0 ≤ a then
    if 0 ≤ b then (a.toNat &&& b.toNat : Nat)
    else (a.toNat ^^^ (a.toNat &&& (-b - 1).toNat) : Nat)
  else
    if 0 ≤ b then (b.toNat ^^^ (b.toNat &&& (-a - 1).toNat) : Nat)
    else -(((((-a - 1).toNat ||| (-b - 1).toNat) : Nat) : Int) + 1)

/-- Two's-complement bitwise OR on unbounded integers (Python `|`). -/
def intOr (a b : Int) : Int :=
  if 0 ≤ a then
    if 0 ≤ b then (a.toNat ||| b.toNat : Nat)
    else -((((-b - 1).toNat ^^^ ((-b - 1).toNat &&& a.toNat) : Nat) : Int) + 1)
  else
    if 0 ≤ b then
      -((((-a - 1).toNat ^^^ ((-a - 1).toNat &&& b.toNat) : Nat) : Int) + 1)
    else -(((((-a - 1).toNat &&& (-b - 1).toNat) : Nat) : Int) + 1)

/-- Two's-complement bitwise XOR on unbounded integers (Python `^`). -/
def intXor (a b : Int) : Int :=
  if 0 ≤ a then
    if 0 ≤ b then (a.toNat ^^^ b.toNat : Nat)
    else -(((a.toNat ^^^ (-b - 1).toNat : Nat) : Int) + 1)
  else
    if 0 ≤ b then -((((-a - 1).toNat ^^^ b.toNat : Nat) : Int) + 1)
    else (((-a - 1).toNat ^^^ (-b - 1).toNat : Nat) : Int)

/-- Python `int(x)`-compatible view of `int`/`bool` operands. -/
def asInt : Value → Option Int
  | .int n => some n
  | .bool b => some (if b then 1 else 0)
  | _ => Option.none

/-- Numeric view of `int`/`bool`/`float` operands. -/
def asNum : Value → Option ℚ
  | .int n => some (n : ℚ)
  | .bool b => some (if b then 1 else 0)
  | .rat q => some q
  | _ => Option.none

/-- `xs * n` list repetition (non-positive counts give the empty list). -/
def seqRepeat (n : Int) (xs : List Value) : List Value :=
  List.flatten (List.replicate n.toNat xs)

/-- `s * n` string repetition. -/
def strRepeat (n : Int) (s : String) : String :=
  String.join (List.replicate n.toNat s)

/-- The `int` (and inherited `bool`) dunder methods: defined on
`int`-like right operands, `NotImplemented` otherwise; `int` has no
`__matmul__`. -/
def intDunder (k : BinKind) (a : Int) (y : Value) : DunderRes :=
  match k, asInt y with
  | .matmul, _ => .missing
  | _, Option.none => .notimpl
  | .add, some b => .val (.int (a + b))
  | .sub, some b => .val (.int (a - b))
  | .mul, some b => .val (.int (a * b))
  | .truediv, some b =>
      if b = 0 then .exn "ZeroDivisionError"
      else .val (.rat ((a : ℚ) / (b : ℚ)))
  | .floordiv, some b =>
      if b = 0 then .exn "ZeroDivisionError" else .val (.int (Int.fdiv a b))
  | .mod, some b =>
      if b = 0 then .exn "ZeroDivisionError" else .val (.int (Int.fmod a b))
  | .pow, some b =>
      if 0 ≤ b then .val (.int (a ^ b.toNat))
      else if a = 0 then .exn "ZeroDivisionError"
      else .val (.rat ((a : ℚ) ^ b))
  | .lshift, some b =>
      if b < 0 then .exn "ValueError" else .val (.int (a * 2 ^ b.toNat))
  | .rshift, some b =>
      if b < 0 then .exn "ValueError"
      else .val (.int (Int.fdiv a (2 ^ b.toNat)))
  | .land, some b => .val (.int (intAnd a b))
  | .lor, some b => .val (.int (intOr a b))
  | .lxor, some b => .val (.int (intXor a b))

/-- Shared arithmetic of the `float` dunder methods over exact rationals
(`p` is the left operand's value, `r` the right's). -/
def ratOp (k : BinKind) (p r : ℚ) : DunderRes :=
  match k with
  | .add => .val (.rat (p + r))
  | .sub => .val (.rat (p - r))
  | .mul => .val (.rat (p * r))
  | .truediv =>
      if r = 0 then .exn "ZeroDivisionError" else .val (.rat (p / r))
  | .floordiv =>
      if r = 0 then .exn "ZeroDivisionError"
      else .val (.rat ((Rat.floor (p / r) : Int) : ℚ))
  | .mod =>
      if r = 0 then .exn "ZeroDivisionError"
      else .val (.rat (p - r * ((Rat.floor (p / r) : Int) : ℚ)))
  | .pow =>
      if r.den = 1 then
        if p = 0 ∧ r < 0 then .exn "ZeroDivisionError"
        else .val (.rat (p ^ r.num))
      else .exn "UnmodelledFloatPower"
  | _ => .missing

/-- The `float` dunder methods: numeric kinds on numeric right operands,
no bitwise/shift/matmul methods. -/
def ratDunder (k : BinKind) (q : ℚ) (y : Value) : DunderRes :=
  match k with
  | .matmul | .land | .lor | .lxor | .lshift | .rshift => .missing
  | _ =>
      match asNum y with
      | some r => ratOp k q r
      | Option.none => .notimpl

/-- `str.__mod__` (printf-style formatting), modelled only for format
strings without a conversion specifier; others map to a distinguished
error. -/
def pyStrMod (s : String) (y : Value) : DunderRes :=
  if s.contains (Char.ofNat 37) then .exn "UnmodelledFormat"
  else
    match y with
    | .tuple [] => .val (.str s)
    | .dict _ => .val (.str s)
    | _ => .exn "TypeError"

/-- The `str` dunder methods: concatenation, repetition, `%`-formatting;
everything else absent. -/
def strDunder (k : BinKind) (s : String) (y : Value) : DunderRes :=
  match k with
  | .add => match y with
            | .str t => .val (.str (s ++ t))
            | _ => .notimpl
  | .mul => match asInt y with
            | some n => .val (.str (strRepeat n s))
            | Option.none => .notimpl
  | .mod => pyStrMod s y
  | _ => .missing

/-- The `list` dunder methods: concatenation and repetition only. -/
def listDunder (k : BinKind) (xs : List Value) (y : Value) : DunderRes :=
  match k with
  | .add => match y with
            | .list ys => .val (.list (xs ++ ys))
            | _ => .notimpl
  | .mul => match asInt y with
            | some n => .val (.list (seqRepeat n xs))
            | Option.none => .notimpl
  | _ => .missing

/-- The `tuple` dunder methods: concatenation and repetition only. -/
def tupleDunder (k : BinKind) (xs : List Value) (y : Value) : DunderRes :=
  match k with
  | .add => match y with
            | .tuple ys => .val (.tuple (xs ++ ys))
            | _ => .notimpl
  | .mul => match asInt y with
            | some n => .val (.tuple (seqRepeat n xs))
            | Option.none => .notimpl
  | _ => .missing

/-- The `set` dunder methods: difference, intersection, union and
symmetric difference against other sets. -/
def setDunder (k : BinKind) (xs : List Value) (y : Value) : DunderRes :=
  match k, y with
  | .sub, .vset ys => .val (.vset (xs.filter (fun e => !(vcontains ys e))))
  | .land, .vset ys => .val (.vset (xs.filter (fun e => vcontains ys e)))
  | .lor, .vset ys =>
      .val (.vset (xs ++ ys.filter (fun e => !(vcontains xs e))))
  | .lxor, .vset ys =>
      .val (.vset (xs.filter (fun e => !(vcontains ys e))
        ++ ys.filter (fun e => !(vcontains xs e))))
  | .sub, _ => .notimpl
  | .land, _ => .notimpl
  | .lor, _ => .notimpl
  | .lxor, _ => .notimpl
  | _, _ => .missing

/-- The `dict` dunder methods: `|` merge (right side wins) only. -/
def dictDunder (k : BinKind) (kvs : List (String × Value)) (y : Value) :
    DunderRes :=
  match k, y with
  | .lor, .dict kvs2 =>
      .val (.dict (kvs2.foldl (fun d kv => alInsert kv.1 kv.2 d) kvs))
  | .lor, _ => .notimpl
  | _, _ => .missing

/-- `x.__k__(y)`: dispatch on the left operand's type.  `None`,
functions, iterators and `NotImplemented` have none of these methods. -/
def rawDunder (k : BinKind) (x y : Value) : DunderRes :=
  match x with
  | .bool bx =>
      match k, y with
      | .land, .bool b2 => .val (.bool (bx && b2))
      | .lor, .bool b2 => .val (.bool (bx || b2))
      | .lxor, .bool b2 => .val (.bool (Bool.xor bx b2))
      | _, _ => intDunder k (if bx then 1 else 0) y
  | .int a => intDunder k a y
  | .rat q => ratDunder k q y
  | .str s => strDunder k s y
  | .list xs => listDunder k xs y
  | .tuple xs => tupleDunder k xs y
  | .vset xs => setDunder k xs y
  | .dict kvs => dictDunder k kvs y
  | _ => .missing

/-- `x.__rk__(y)` — the reflected method on `x`, computing `y OP x`.
Types reflect exactly the operators they implement forward (plus
`str`/`list`/`tuple` `__rmul__`); numeric reflections accept the same
operand kinds as the forward methods. -/
def rawRDunder (k : BinKind) (x y : Value) : DunderRes :=
  match x with
  | .bool _ | .int _ =>
      (match k with
       | .matmul => .missing
       | _ => match asInt y with
              | some _ => rawDunder k y x
              | Option.none => .notimpl)
  | .rat q =>
      (match k with
       | .matmul | .land | .lor | .lxor | .lshift | .rshift => .missing
       | _ => match asNum y with
              | some r => ratOp k r q
              | Option.none => .notimpl)
  | .str s =>
      (match k with
       | .mul => (match asInt y with
                  | some n => .val (.str (strRepeat n s))
                  | Option.none => .notimpl)
       | _ => .missing)
  | .list xs =>
      (match k with
       | .mul => (match asInt y with
                  | some n => .val (.list (seqRepeat n xs))
                  | Option.none => .notimpl)
       | _ => .missing)
  | .tuple xs =>
      (match k with
       | .mul => (match asInt y with
                  | some n => .val (.tuple (seqRepeat n xs))
                  | Option.none => .notimpl)
       | _ => .missing)
  | .vset _ =>
      (match k with
       | .sub | .land | .lor | .lxor =>
          (match y with
           | .vset _ => rawDunder k y x
           | _ => .notimpl)
       | _ => .missing)
  | .dict _ =>
      (match k with
       | .lor => (match y with
                  | .dict _ => rawDunder k y x
                  | _ => .notimpl)
       | _ => .missing)
  | _ => .missing

/-- A code-13–25 table entry `lambda x, y: x.__op__(y)`: explicit method
call — `NotImplemented` is an ordinary return value that gets pushed, a
missing method is an `AttributeError`. -/
def dunderApply (k : BinKind) (x y : Value) : Except String Value :=
  match rawDunder k x y with
  | .val v => .ok v
  | .notimpl => .ok Value.notimplemented
  | .missing => .error "AttributeError"
  | .exn e => .error e

/-- A code-0–12 table entry `lambda x, y: x OP y`: Python's binary
protocol — forward dunder, reflected fallback when the forward method is
absent or declines, `TypeError` when both decline. -/
def synApply (k : BinKind) (x y : Value) : Except String Value :=
  match rawDunder k x y with
  | .val v => .ok v
  | .exn e => .error e
  | _ =>
      match rawRDunder k y x with
      | .val v => .ok v
      | .exn e => .error e
      | _ => .error "TypeError"

/-- Operand codes 0–12 of `Frame._BINARIES` (operator-syntax forms). -/
def binSyntaxCode : Nat → Option BinKind
  | 0 => some .add
  | 10 => some .sub
  | 5 => some .mul
  | 11 => some .truediv
  | 2 => some .floordiv
  | 6 => some .mod
  | 4 => some .matmul
  | 8 => some .pow
  | 3 => some .lshift
  | 9 => some .rshift
  | 1 => some .land
  | 7 => some .lor
  | 12 => some .lxor
  | _ => Option.none

/-- Operand codes 13–25 of `Frame._BINARIES` (explicit dunder forms). -/
def binDunderCode : Nat → Option BinKind
  | 13 => some .add
  | 23 => some .sub
  | 18 => some .mul
  | 24 => some .truediv
  | 15 => some .floordiv
  | 19 => some .mod
  | 17 => some .matmul
  | 21 => some .pow
  | 16 => some .lshift
  | 22 => some .rshift
  | 14 => some .land
  | 20 => some .lor
  | 25 => some .lxor
  | _ => Option.none

/-- `Frame._BINARIES[op](x, y)` — an unknown code is the dictionary's
`KeyError`. -/
def binTable (op : Nat) (x y : Value) : Except String Value :=
  match binSyntaxCode op with
  | some k => synApply k x y
  | Option.none =>
      match binDunderCode op with
      | some k => dunderApply k x y
      | Option.none => .error "KeyError"

/-- `Frame.binary_op_op`: pop right then left, apply the selected table
entry, push the result. -/
def binary_op_op (op : Nat) (s : List Value) : Except String (List Value) :=
  match s with
  | right :: left :: rest => (binTable op left right).map (fun v => v :: rest)
  | _ => .error "IndexError"

/-- Discriminator for the `NotImplemented` sentinel. -/
def isNotImpl : Value → Bool
  | .notimplemented => true
  | _ => false

/-- When an explicit dunder-table call returns an ordinary value (not the
`NotImplemented` sentinel), the operator-syntax protocol returns the same
value: the syntax form starts with the same forward dunder call and only
diverges on its `NotImplemented`/absent outcomes. -/
theorem dunder_ok_syn (k : BinKind) (x y v : Value)
    (h : dunderApply k x y = .ok v) (hv : isNotImpl v = false) :
    synApply k x y = .ok v := by
  unfold dunderApply at h
  cases hr : rawDunder k x y <;> rw [hr] at h
  · injection h with h1
    subst h1
    unfold synApply
    rw [hr]
  · injection h with h1
    subst h1
    simp [isNotImpl] at hv
  · exact absurd h (by simp)
  · exact absurd h (by simp)

/-- The (syntax, dunder) operand-code pairs of `Frame._BINARIES` that
address the same operator. -/
def binPairs : List (Nat × Nat) :=
  [(0, 13), (10, 23), (5, 18), (11, 24), (2, 15), (6, 19), (4, 17),
   (8, 21), (3, 16), (9, 22), (1, 14), (7, 20), (12, 25)]

/-- C5 (amended): for each of the 13 operators, whenever the
method-dispatch table entry (codes 13–25) produces an ordinary result
value — not the `NotImplemented` sentinel and not a raised exception —
the operator-syntax entry (codes 0–12) applied by the binary-op handler
produces that same result.  (The entries differ when the forward dunder
is absent or returns `NotImplemented`: the syntax form then falls back to
the reflected operation or raises `TypeError`, while the method-dispatch
form raises `AttributeError` or pushes `NotImplemented` itself.) -/
theorem binary_tables_agree_on_success (p : Nat × Nat) (hp : p ∈ binPairs)
    (x y v : Value) (rest : List Value)
    (h : binTable p.2 x y = .ok v) (hv : isNotImpl v = false) :
    binTable p.1 x y = .ok v
    ∧ binary_op_op p.1 (y :: x :: rest) = .ok (v :: rest) := by
  have h3 : ∃ k, binSyntaxCode p.1 = some k
      ∧ binSyntaxCode p.2 = Option.none ∧ binDunderCode p.2 = some k := by
    fin_cases hp <;> exact ⟨_, rfl, rfl, rfl⟩
  obtain ⟨k, hs, hns, hd⟩ := h3
  rw [binTable, hns, hd] at h
  have hsyn : synApply k x y = .ok v := dunder_ok_syn k x y v h hv
  constructor
  · rw [binTable, hs]
    exact hsyn
  · simp only [binary_op_op, binTable, hs, hsyn, Except.map]

/-- C5 as stated is false: on the operand pair `(1, "a")` the
operator-syntax entry for `add` (code 0) raises `TypeError` (`int.__add__`
declines and `str` has no `__radd__`), while the method-dispatch entry
(code 13) returns — and the handler pushes — the `NotImplemented`
sentinel.  The two tables do not produce the same result for every pair
of operand values. -/
theorem binary_tables_cex :
    binTable 0 (Value.int 1) (Value.str "a") = .error "TypeError"
    ∧ binTable 13 (Value.int 1) (Value.str "a") = .ok Value.notimplemented
    ∧ binary_op_op 0 [Value.str "a", Value.int 1] = .error "TypeError"
    ∧ binary_op_op 13 [Value.str "a", Value.int 1] =
        .ok [Value.notimplemented] :=
  ⟨rfl, rfl, rfl, rfl⟩

/-- Witness for `binary_tables_agree_on_success` at `2 + 3`. -/
theorem binary_tables_agree_on_success_wit :
    binTable 0 (Value.int 2) (Value.int 3) = .ok (Value.int 5)
    ∧ binary_op_op 0 [Value.int 3, Value.int 2] = .ok [Value.int 5] :=
  binary_tables_agree_on_success (0, 13) (by decide)
    (Value.int 2) (Value.int 3) (Value.int 5) [] rfl rfl

/-!
## The dispatch loop (claims C6, C7)

`Frame.run` builds the offset→position index, then fetches, dispatches
and increments until the pointer passes the stream length or a
`return_value` ran.  The instruction subset embedded here carries its
decoded operand in the constructor (the source's arity classification is
argument plumbing for `getattr` dispatch).  The loop is fueled: `none`
means the fuel ran out or a handler raised.
-/

/-- Embedded instruction mnemonics with their decoded operands. -/
inductive Op : Type where
  | load_const (c : Value)
  | return_value
  | pop_top
  | nop
  | jump_forward (tgt : Nat)
  | jump_backward (tgt : Nat)
  | get_iter
  | for_iter (tgt : Nat)
  | list_append (i : Nat)

/-- A decoded instruction: its byte offset and mnemonic/operand. -/
structure Instr where
  offset : Nat
  op : Op

/-- The run-loop state: execution stack, instruction pointer
(`self.counter`, an unbounded integer — jump handlers may set it to −1),
and the return-value slot (initially `None`). -/
structure RunSt where
  stack : List Value
  counter : Int
  retval : Value

/-- `for i in range(len(ins_lst)): self.index[ins_lst[i].offset] = i` —
the Offset Index, built once per frame. -/
def buildIndex (ins : List Instr) : List (Nat × Nat) :=
  (List.range ins.length).foldl
    (fun d i =>
      match ins.get? i with
      | some instr => alInsert instr.offset i d
      | Option.none => d) []

/-- `iterable.__iter__()` of the object runtime: containers yield a fresh
iterator over their elements (dicts over their keys), an iterator yields
itself. -/
def pyIter : Value → Option Value
  | .list xs => some (.iterator xs)
  | .tuple xs => some (.iterator xs)
  | .vset xs => some (.iterator xs)
  | .str s => some (.iterator (s.toList.map (fun c => Value.str (String.mk [c]))))
  | .dict kvs => some (.iterator (kvs.map (fun kv => Value.str kv.1)))
  | .iterator r => some (.iterator r)
  | _ => Option.none

/-- `self.counter = self.index[to] - 1` (a missing offset is the
dictionary's `KeyError`). -/
def jumpTo (idx : List (Nat × Nat)) (tgt : Nat) (st : RunSt) : Option RunSt :=
  match alLookup idx tgt with
  | some j => some {st with counter := (j : Int) - 1}
  | Option.none => Option.none

/-- `Frame.jump_forward_op`. -/
def jump_forward_op (idx : List (Nat × Nat)) (tgt : Nat) (st : RunSt) :
    Option RunSt :=
  jumpTo idx tgt st

/-- `Frame.jump_backward_op` (same body as the forward jump). -/
def jump_backward_op (idx : List (Nat × Nat)) (tgt : Nat) (st : RunSt) :
    Option RunSt :=
  jumpTo idx tgt st

/-- `Frame.for_iter_op`: peek the top-of-stack iterator; on success push
the next value (the iterator object itself advances in place); on
exhaustion pop the iterator and take the forward jump to `tgt`. -/
def for_iter_op (idx : List (Nat × Nat)) (tgt : Nat) (st : RunSt) :
    Option RunSt :=
  match st.stack with
  | .iterator (v :: rem) :: s =>
      some {st with stack := v :: .iterator rem :: s}
  | .iterator [] :: s => jumpTo idx tgt {st with stack := s}
  | _ => Option.none

/-- `Frame.get_iter_op`: pop an iterable, push its iterator. -/
def get_iter_op (st : RunSt) : Option RunSt :=
  match st.stack with
  | v :: s => (pyIter v).map (fun it => {st with stack := it :: s})
  | [] => Option.none

/-- Python `data_stack[-i]` on a head-is-top stack (`-0` is the bottom). -/
def pyStackGet (s : List Value) (i : Nat) : Option Value :=
  if i = 0 then s.getLast? else s.get? (i - 1)

/-- In-place update of `data_stack[-i]` (the functional image of mutating
the container object stored in that slot). -/
def pyStackSet (s : List Value) (i : Nat) (v : Value) : List Value :=
  if i = 0 then s.dropLast ++ [v] else s.set (i - 1) v

/-- `Frame.list_append_op`: pop a value and `list.append` it tgt the list
at stack depth `i`. -/
def list_append_op (i : Nat) (st : RunSt) : Option RunSt :=
  match st.stack with
  | v :: s =>
      match pyStackGet s i with
      | some (.list xs) =>
          some {st with stack := pyStackSet s i (.list (xs ++ [v]))}
      | _ => Option.none
  | [] => Option.none

/-- Whether the fetched instruction is `return_value` (after whose
handler the loop breaks without incrementing). -/
def isReturnOp : Op → Bool
  | .return_value => true
  | _ => false

/-- One dispatch: route the mnemonic to its handler. -/
def execOp (idx : List (Nat × Nat)) (o : Op) (st : RunSt) : Option RunSt :=
  match o with
  | .load_const c => some {st with stack := c :: st.stack}
  | .return_value =>
      match st.stack with
      | v :: s => some {st with stack := s, retval := v}
      | [] => Option.none
  | .pop_top =>
      match st.stack with
      | _ :: s => some {st with stack := s}
      | [] => Option.none
  | .nop => some st
  | .jump_forward tgt => jump_forward_op idx tgt st
  | .jump_backward tgt => jump_backward_op idx tgt st
  | .get_iter => get_iter_op st
  | .for_iter tgt => for_iter_op idx tgt st
  | .list_append i => list_append_op i st

/-- The `while True` body of `Frame.run`: terminate with the return-value
slot once the pointer reaches or passes the stream length; otherwise
fetch (Python indexing, so a negative pointer would wrap), dispatch,
break after a `return_value`, and increment the pointer. -/
def runLoop (ins : List Instr) (idx : List (Nat × Nat)) :
    Nat → RunSt → Option Value
  | 0, _ => Option.none
  | fuel + 1, st =>
      if (ins.length : Int) ≤ st.counter then some st.retval
      else
        match pyIndex ins st.counter with
        | Option.none => Option.none
        | some instr =>
            match execOp idx instr.op st with
            | Option.none => Option.none
            | some st1 =>
                if isReturnOp instr.op then some st1.retval
                else runLoop ins idx fuel {st1 with counter := st1.counter + 1}

/-- `Frame.run`: build the Offset Index, start with an empty stack,
pointer 0 and an unset (`None`) return-value slot. -/
def runFrame (ins : List Instr) (fuel : Nat) : Option Value :=
  runLoop ins (buildIndex ins) fuel ⟨[], 0, Value.none⟩

/-- One-step unfolding of `runLoop` at positive fuel. -/
theorem runLoop_succ (ins : List Instr) (idx : List (Nat × Nat))
    (fuel : Nat) (st : RunSt) :
    runLoop ins idx (fuel + 1) st =
      if (ins.length : Int) ≤ st.counter then some st.retval
      else
        match pyIndex ins st.counter with
        | Option.none => Option.none
        | some instr =>
            match execOp idx instr.op st with
            | Option.none => Option.none
            | some st1 =>
                if isReturnOp instr.op then some st1.retval
                else runLoop ins idx fuel {st1 with counter := st1.counter + 1} :=
  rfl

/-- Every Offset Index entry points back at an instruction carrying its
key as byte offset. -/
theorem alLookup_buildIndex (ins : List Instr) (o j : Nat)
    (h : alLookup (buildIndex ins) o = some j) :
    ∃ t, ins.get? j = some t ∧ t.offset = o := by
  have main : ∀ k, k ≤ ins.length → ∀ o1 j1,
      alLookup ((List.range k).foldl
        (fun d i =>
          match ins.get? i with
          | some instr => alInsert instr.offset i d
          | Option.none => d) []) o1 = some j1 →
      ∃ t, ins.get? j1 = some t ∧ t.offset = o1 := by
    intro k
    induction k with
    | zero =>
        intro _ o1 j1 h2
        simp [alLookup] at h2
    | succ k ih =>
        intro hk o1 j1 h2
        rw [List.range_succ, List.foldl_append, List.foldl_cons,
          List.foldl_nil] at h2
        cases hg : ins.get? k with
        | none =>
            rw [hg] at h2
            exact ih (by omega) o1 j1 h2
        | some t =>
            rw [hg] at h2
            simp only at h2
            rw [alLookup_alInsert] at h2
            by_cases ho : t.offset = o1
            · rw [if_pos ho] at h2
              injection h2 with h3
              subst h3
              exact ⟨t, hg, ho⟩
            · rw [if_neg ho] at h2
              exact ih (by omega) o1 j1 h2
  exact main ins.length le_rfl o j h

/-- C6: the dispatch loop's termination and jump-target discipline.
First, whenever the instruction pointer reaches or passes the stream
length, the loop terminates immediately and yields whatever the
return-value slot holds.  Second, both jump handlers set the pointer to
`index[target] - 1`.  Third, an Offset Index entry for `o` names a
position whose instruction sits at byte offset `o`.  Fourth, a loop step
on a fetched jump instruction continues exactly as if the pointer had
been placed on the indexed target position — the uniform post-handler
increment lands on the target. -/
theorem dispatch_termination_and_jumps :
    (∀ (ins : List Instr) (idx : List (Nat × Nat)) (fuel : Nat) (st : RunSt),
      (ins.length : Int) ≤ st.counter →
      runLoop ins idx (fuel + 1) st = some st.retval)
    ∧ (∀ (idx : List (Nat × Nat)) (tgt j : Nat) (st : RunSt),
      alLookup idx tgt = some j →
      jump_forward_op idx tgt st = some {st with counter := (j : Int) - 1}
      ∧ jump_backward_op idx tgt st = some {st with counter := (j : Int) - 1})
    ∧ (∀ (ins : List Instr) (o j : Nat),
      alLookup (buildIndex ins) o = some j →
      ∃ t, ins.get? j = some t ∧ t.offset = o)
    ∧ (∀ (ins : List Instr) (fuel : Nat) (st : RunSt) (tgt j : Nat)
        (instr : Instr),
      pyIndex ins st.counter = some instr → instr.op = .jump_forward tgt →
      ¬ (ins.length : Int) ≤ st.counter →
      alLookup (buildIndex ins) tgt = some j →
      runLoop ins (buildIndex ins) (fuel + 1) st =
        runLoop ins (buildIndex ins) fuel {st with counter := (j : Int)}) := by
  refine ⟨?_, ?_, ?_, ?_⟩
  · intro ins idx fuel st h
    rw [runLoop_succ, if_pos h]
  · intro idx tgt j st h
    constructor <;>
      simp [jump_forward_op, jump_backward_op, jumpTo, h]
  · exact alLookup_buildIndex
  · intro ins fuel st tgt j instr hfetch hop hlt hidx
    rw [runLoop_succ, if_neg hlt, hfetch]
    simp only [hop, execOp, jump_forward_op, jumpTo, hidx, isReturnOp]
    have : (j : Int) - 1 + 1 = (j : Int) := by omega
    simp [this]

/-- A concrete four-instruction program for the C6 witness. -/
def insW : List Instr :=
  [⟨0, .load_const (Value.int 7)⟩, ⟨2, .jump_forward 6⟩,
   ⟨4, .nop⟩, ⟨6, .return_value⟩]

/-- Witness for `dispatch_termination_and_jumps` on `insW`: a pointer at
the stream length terminates with the slot value; the jump handler lands
`index[6] - 1 = 2`; the index entry for offset 6 names position 3; and a
loop step at the jump instruction continues from position 3. -/
theorem dispatch_termination_and_jumps_wit :
    runLoop insW [] 5 ⟨[], 4, Value.int 9⟩ = some (Value.int 9)
    ∧ jump_forward_op (buildIndex insW) 6 ⟨[], 1, Value.none⟩ =
        some ⟨[], 2, Value.none⟩
    ∧ (∃ t, insW.get? 3 = some t ∧ t.offset = 6)
    ∧ runLoop insW (buildIndex insW) 6 ⟨[Value.int 7], 1, Value.none⟩ =
        runLoop insW (buildIndex insW) 5 ⟨[Value.int 7], 3, Value.none⟩ := by
  refine ⟨?_, ?_, ?_, ?_⟩
  · exact dispatch_termination_and_jumps.1 insW [] 4 ⟨[], 4, Value.int 9⟩
      (by norm_num [insW])
  · exact (dispatch_termination_and_jumps.2.1 (buildIndex insW) 6 3
      ⟨[], 1, Value.none⟩ rfl).1
  · exact dispatch_termination_and_jumps.2.2.1 insW 6 3 rfl
  · exact dispatch_termination_and_jumps.2.2.2 insW 5 ⟨[Value.int 7], 1, Value.none⟩
      6 3 ⟨2, .jump_forward 6⟩ rfl rfl (by norm_num [insW]) rfl

/-- The canonical `for_iter`-driven loop: iterate over `vs`, appending
each produced element to an accumulator list, and return the accumulator
after the exhaustion jump (positions coincide with byte offsets). -/
def loopProg (vs : List Value) : List Instr :=
  [⟨0, .load_const (Value.list [])⟩,
   ⟨1, .load_const (Value.list vs)⟩,
   ⟨2, .get_iter⟩,
   ⟨3, .for_iter 6⟩,
   ⟨4, .list_append 2⟩,
   ⟨5, .jump_backward 3⟩,
   ⟨6, .return_value⟩]

/-- Loop invariant: from the `for_iter` instruction with the iterator
holding `rem` and the accumulator holding `acc`, the run returns
`acc ++ rem` — each remaining element passes through the loop body
exactly once, and the exit jump fires exactly once at exhaustion. -/
theorem loopProg_inv (vs : List Value) : ∀ rem acc : List Value,
    runLoop (loopProg vs) (buildIndex (loopProg vs)) (3 * rem.length + 3)
      ⟨[Value.iterator rem, Value.list acc], 3, Value.none⟩ =
      some (Value.list (acc ++ rem)) := by
  intro rem
  induction rem with
  | nil =>
      intro acc
      rw [List.append_nil]
      exact rfl
  | cons v rest ih =>
      intro acc
      have hf : 3 * (v :: rest).length + 3 = (3 * rest.length + 3) + 3 := by
        simp [List.length_cons]
        ring
      rw [hf]
      have hstep : runLoop (loopProg vs) (buildIndex (loopProg vs))
          ((3 * rest.length + 3) + 3)
          ⟨[Value.iterator (v :: rest), Value.list acc], 3, Value.none⟩ =
        runLoop (loopProg vs) (buildIndex (loopProg vs))
          (3 * rest.length + 3)
          ⟨[Value.iterator rest, Value.list (acc ++ [v])], 3, Value.none⟩ := rfl
      rw [hstep, ih (acc ++ [v])]
      simp

/-- C7: `for_iter` drives bounded loops.  On a non-exhausted iterator the
handler peeks (the iterator object stays, advanced in place), pushes the
produced value, and leaves the pointer alone; on exhaustion it pops the
iterator and jumps to the exit offset.  Consequently the canonical loop
over a `K`-element list runs its body exactly `K` times — the returned
accumulator is exactly the `K` elements in order — and takes the exit
jump exactly once. -/
theorem for_iter_drives_loop :
    (∀ (idx : List (Nat × Nat)) (tgt : Nat) (v : Value) (rem s : List Value)
        (c : Int) (r : Value),
      for_iter_op idx tgt ⟨Value.iterator (v :: rem) :: s, c, r⟩ =
        some ⟨v :: Value.iterator rem :: s, c, r⟩)
    ∧ (∀ (idx : List (Nat × Nat)) (tgt : Nat) (s : List Value) (c : Int)
        (r : Value),
      for_iter_op idx tgt ⟨Value.iterator [] :: s, c, r⟩ =
        (alLookup idx tgt).map (fun j => ⟨s, (j : Int) - 1, r⟩))
    ∧ (∀ vs : List Value,
      runFrame (loopProg vs) (3 * vs.length + 6) = some (Value.list vs)) := by
  refine ⟨?_, ?_, ?_⟩
  · intro idx tgt v rem s c r
    rfl
  · intro idx tgt s c r
    unfold for_iter_op jumpTo
    cases alLookup idx tgt <;> rfl
  · intro vs
    have h0 : runFrame (loopProg vs) (3 * vs.length + 6) =
        runLoop (loopProg vs) (buildIndex (loopProg vs)) (3 * vs.length + 3)
          ⟨[Value.iterator vs, Value.list []], 3, Value.none⟩ := rfl
    rw [h0, loopProg_inv vs vs []]
    rfl

/-!
## Container builders (claim C8)
-/

/-- `Frame.build_tuple_op`: `values = self.popn(count); self.push(values)`
— the source pushes the Python list `values` itself, with no `tuple(...)`
conversion, so the pushed container is a list. -/
def build_tuple_op (count : Nat) (s : List Value) : List Value :=
  Value.list (popn count s).1 :: (popn count s).2

/-- `Frame.build_list_op`: `self.push(list(values))`. -/
def build_list_op (count : Nat) (s : List Value) : List Value :=
  Value.list (popn count s).1 :: (popn count s).2

/-- `set(values)`: the distinct elements (first occurrences, in insertion
order — Python's hash iteration order is not modelled). -/
def vdedup (xs : List Value) : List Value :=
  xs.foldl (fun acc v => if vcontains acc v then acc else acc ++ [v]) []

/-- `Frame.build_set_op`: `self.push(set(values))`. -/
def build_set_op (count : Nat) (s : List Value) : List Value :=
  Value.vset (vdedup (popn count s).1) :: (popn count s).2

/-- Discriminator for tuple values. -/
def isTupleV : Value → Bool
  | .tuple _ => true
  | _ => false

/-- C8 fails on the code for `build_tuple`: popping the top two values
`1, 2` pushes the single value `list [1, 2]` — the popped values in
deepest-first order, but wrapped as a Python *list*, not the tuple the
claim requires (`build_list` correctly pushes a list; the pushed value is
not a tuple and differs from the corresponding tuple under Python
equality). -/
theorem build_tuple_pushes_list_bug :
    build_tuple_op 2 [Value.int 2, Value.int 1, Value.int 9] =
      [Value.list [Value.int 1, Value.int 2], Value.int 9]
    ∧ build_list_op 2 [Value.int 2, Value.int 1, Value.int 9] =
      [Value.list [Value.int 1, Value.int 2], Value.int 9]
    ∧ isTupleV (Value.list [Value.int 1, Value.int 2]) = false
    ∧ vbeq (Value.list [Value.int 1, Value.int 2])
        (Value.tuple [Value.int 1, Value.int 2]) = false :=
  ⟨rfl, rfl, rfl, rfl⟩

/-!
## `format_value` (claim C9)
-/

mutual

/-- Python `repr` over the modelled domain (strings are quoted without
escape modelling; floats render as exact fractions). -/
def pyRepr : Value → String
  | .none => "None"
  | .bool true => "True"
  | .bool false => "False"
  | .int n => toString n
  | .rat q => toString q.num ++ "/" ++ toString q.den
  | .str s => String.singleton (Char.ofNat 39) ++ s ++ String.singleton (Char.ofNat 39)
  | .list xs => "[" ++ pyReprList xs ++ "]"
  | .tuple xs => "(" ++ pyReprList xs ++ ")"
  | .vset xs => "\x7b" ++ pyReprList xs ++ "\x7d"
  | .dict kvs => "\x7b" ++ pyReprDict kvs ++ "\x7d"
  | .iterator _ => "<list_iterator>"
  | .func fid => "<function " ++ toString fid ++ ">"
  | .notimplemented => "NotImplemented"

/-- Comma-separated `repr`s of list elements. -/
def pyReprList : List Value → String
  | [] => ""
  | [v] => pyRepr v
  | v :: rest => pyRepr v ++ ", " ++ pyReprList rest

/-- Comma-separated `repr`s of dictionary entries. -/
def pyReprDict : List (String × Value) → String
  | [] => ""
  | [(k, v)] => k ++ ": " ++ pyRepr v
  | (k, v) :: rest => k ++ ": " ++ pyRepr v ++ ", " ++ pyReprDict rest

end

/-- Python `str`: the string itself for strings, `repr` otherwise on the
modelled domain. -/
def pyStr : Value → String
  | .str s => s
  | v => pyRepr v

/-- Python `ascii`: coincides with `repr` on the modelled domain (no
non-ASCII escape modelling). -/
def pyAscii (v : Value) : String :=
  pyRepr v

/-- `Frame.format_value_op`.  The source tests `(flags & 4) == 1` for the
format-spec branch (where `format_spec(obj)` would be applied via the
runtime `ap`); otherwise it pops one object and pushes `str`/`repr`/
`ascii` per `flags & 3`, pushing nothing when `flags & 3 == 0`. -/
def format_value_op (ap : Value → List Value → PyDict → Value) (flags : Nat)
    (s : List Value) : Option (List Value) :=
  if flags &&& 4 = 1 then
    match s with
    | format_spec :: obj :: rest => some (ap format_spec [obj] [] :: rest)
    | _ => Option.none
  else
    match s with
    | obj :: rest =>
        if flags &&& 3 = 1 then some (Value.str (pyStr obj) :: rest)
        else if flags &&& 3 = 2 then some (Value.str (pyRepr obj) :: rest)
        else if flags &&& 3 = 3 then some (Value.str (pyAscii obj) :: rest)
        else some rest
    | [] => Option.none

/-- C9 fails on the code: `flags & 4` is always `0` or `4`, never `1`, so
the source's `(flags & 4) == 1` format-spec branch is unreachable.  With
the has-format-spec flag set (`flags = 4`, stack top-first `[formatter,
obj]`) the handler falls into the conversion branch, pops the *formatter*
as if it were the object, matches none of the low-bit cases and pushes
nothing — instead of popping both and pushing `formatter(obj)` (which
under the recording applier would be `tuple [1, 0]`).  With `flags = 1`
the `str` rendering is pushed as the claim says. -/
theorem format_value_dead_branch_bug :
    (∀ flags : Nat, (flags &&& 4 == 1) = false)
    ∧ format_value_op apSplit 4 [Value.func 0, Value.int 5] =
        some [Value.int 5]
    ∧ apSplit (Value.func 0) [Value.int 5] [] =
        Value.tuple [Value.int 1, Value.int 0]
    ∧ format_value_op apSplit 1 [Value.int 5] = some [Value.str "5"]
    ∧ format_value_op apSplit 0 [Value.int 5] = some [] := by
  refine ⟨?_, rfl, rfl, rfl, rfl⟩
  intro flags
  have h := Nat.and_two_pow flags 2
  norm_num at h
  cases hb : flags.testBit 2 <;> rw [hb] at h <;> simp at h <;> simp [h]

/-!
## `load_attr` (claim C10)
-/

/-- `Frame.load_attr_op`: pop the object, probe the attribute via
`obj.__getattribute__(namei)` (an absent attribute raises
`AttributeError`), and push the original object back — the attribute
value is discarded. -/
def load_attr_op (ga : Value → String → Option Value) (namei : String)
    (s : List Value) : Option (List Value) :=
  match s with
  | obj :: rest =>
      match ga obj namei with
      | some _ => some (obj :: rest)
      | Option.none => Option.none
  | [] => Option.none

/-- C10: for an object possessing the named attribute, `load_attr`
leaves the stack exactly as it was (it pops the object and re-pushes the
original object, not the attribute value); it fails exactly when the
attribute is absent. -/
theorem load_attr_preserves_stack (ga : Value → String → Option Value)
    (namei : String) (obj : Value) (rest : List Value) :
    ((ga obj namei).isSome = true →
      load_attr_op ga namei (obj :: rest) = some (obj :: rest))
    ∧ (ga obj namei = Option.none →
      load_attr_op ga namei (obj :: rest) = Option.none) := by
  constructor
  · intro h
    cases hg : ga obj namei with
    | none => rw [hg] at h; simp at h
    | some v => simp [load_attr_op, hg]
  · intro h
    simp [load_attr_op, h]

/-- An attribute table granting only the attribute `x`. -/
def gaWit : Value → String → Option Value :=
  fun _ nm => if nm = "x" then some (Value.int 1) else Option.none

/-- Witness for `load_attr_preserves_stack`: the probe of `x` leaves the
two-value stack unchanged, the probe of `y` fails. -/
theorem load_attr_preserves_stack_wit :
    load_attr_op gaWit "x" [Value.int 3, Value.int 4] =
      some [Value.int 3, Value.int 4]
    ∧ load_attr_op gaWit "y" [Value.int 3, Value.int 4] = Option.none :=
  ⟨(load_attr_preserves_stack gaWit "x" (Value.int 3) [Value.int 4]).1 rfl,
   (load_attr_preserves_stack gaWit "y" (Value.int 3) [Value.int 4]).2 rfl⟩

end PyVM
